import Mathlib

/-!
Verification of the porthole service-discovery core: a shallow embedding of
the discovery-and-normalization engine (`service_discovery.py`, `models.py`,
`config.py`, `nginx_generator.py`) together with theorems settling the
frozen claims about it.

Python integers are modelled as `Int`, optional values as `Option`, lists
as `List`, and raising code as `Except PyErr`.  A Python expression of the
form `x or default` on lists/dicts is modelled by `pyList` (falsy values —
`None` and the empty list — both collapse to `[]`), and on strings by
`pyOr`.
-/

namespace Porthole

/-- Errors raised by the embedded code: `ApiException` (with its HTTP
status), pydantic `ValidationError`, and plain `ValueError`. -/
inductive PyErr where
  | apiException (status : Nat)
  | validationError
  | valueError
deriving DecidableEq, Repr

/-- Embeds `constants.MIN_PORT`. -/
def MIN_PORT : Int := 1

/-- Embeds `constants.MAX_PORT`. -/
def MAX_PORT : Int := 65535

/-- Embeds `models.ServiceType`. -/
inductive ServiceType where
  | clusterIP
  | nodePort
  | loadBalancer
  | externalName
deriving DecidableEq, Repr

/-- Embeds `models.EndpointStatus`. -/
inductive EndpointStatus where
  | healthy
  | unhealthy
  | unknown
deriving DecidableEq, Repr

/-- Python truthiness for optional lists: `x or []` — `None` and `[]`
both give `[]`. -/
def pyList {α : Type} : Option (List α) → List α
  | none => []
  | some l => l

/-- Python `x or default` for optional strings (`None` and `""` are falsy). -/
def pyOr : Option String → String → String
  | none, d => d
  | some s, d => if s = "" then d else s

/-- Embeds `models.ServicePort` (validated model). -/
structure ServicePort where
  name : Option String
  port : Int
  target_port : Option String
  protocol : String
  node_port : Option Int
deriving DecidableEq, Repr

/-- Embeds `models.ServiceEndpoint` (validated model). -/
structure ServiceEndpoint where
  ip : String
  port : Int
  ready : Bool
  hostname : Option String
deriving DecidableEq, Repr

/-- Embeds `models.KubernetesService` (validated model). -/
structure KubernetesService where
  name : String
  «namespace» : String
  service_type : ServiceType
  cluster_ip : Option String
  external_ips : List String
  ports : List ServicePort
  endpoints : List ServiceEndpoint
  labels : List (String × String)
  annotations : List (String × String)
  selector : List (String × String)
  created_at : Option Nat
  endpoint_status : EndpointStatus
  is_frontend : Bool
  http_response_code : Option Int
  redirect_url : String
deriving DecidableEq, Repr

/-- Embeds `KubernetesService.is_headless`: no cluster IP, or the literal string
`"None"`. -/
def KubernetesService.is_headless (s : KubernetesService) : Bool :=
  s.cluster_ip.isNone || s.cluster_ip == some "None"

/-- Embeds `KubernetesService.display_name`. -/
def KubernetesService.display_name (s : KubernetesService) : String :=
  s.«namespace» ++ "/" ++ s.name

/-- Embeds `KubernetesService.has_valid_endpoints`: status equals healthy. -/
def KubernetesService.has_valid_endpoints (s : KubernetesService) : Bool :=
  s.endpoint_status == EndpointStatus.healthy

/-- Embeds `KubernetesService.get_proxy_url` (with default empty base URL). -/
def KubernetesService.get_proxy_url (s : KubernetesService) (p : ServicePort) : String :=
  "/" ++ s.«namespace» ++ "_" ++ s.name ++ "_" ++ toString p.port ++ "/"

/-- Embeds `ServiceDiscovery._determine_endpoint_status`.  The source computes
`ready_count = sum(1 for ep in endpoints if ep.ready)` and branches on it;
the count is inlined here as the length of the filtered list.  Both the
all-ready branch and the some-ready branch return healthy, as in the
source. -/
def determineEndpointStatus (endpoints : List ServiceEndpoint) : EndpointStatus :=
  if endpoints.isEmpty then EndpointStatus.unhealthy
  else if (endpoints.filter (fun ep => ep.ready)).length = 0 then EndpointStatus.unhealthy
  else if (endpoints.filter (fun ep => ep.ready)).length = endpoints.length then
    EndpointStatus.healthy
  else EndpointStatus.healthy

/-- Embeds `config.Config`, restricted to the fields the discovery core reads. -/
structure Config where
  skip_namespaces : List String
  include_headless_services : Bool
  frontend_patterns : List String
deriving DecidableEq, Repr

/-- Embeds `Config.is_frontend_service`.  The regular-expression engine is
abstracted as a parameter `reSearch pattern text`, standing for Python's
`re.search(pattern, text, re.IGNORECASE) is not None`; the source returns
true on the first matching pattern and false when the pattern list is
empty or no pattern matches. -/
def isFrontendService (reSearch : String → String → Bool) (cfg : Config)
    (service_name : String) : Bool :=
  if cfg.frontend_patterns.isEmpty then false
  else cfg.frontend_patterns.any (fun pattern => reSearch pattern service_name)

/-- Embeds `Config.is_frontend_port`: identical scan over the patterns, except
that an empty (falsy) port name short-circuits to false. -/
def isFrontendPort (reSearch : String → String → Bool) (cfg : Config)
    (port_name : String) : Bool :=
  if cfg.frontend_patterns.isEmpty || port_name == "" then false
  else cfg.frontend_patterns.any (fun pattern => reSearch pattern port_name)

/-- Whether `needle` is a prefix of `hay` (over characters). -/
def listPrefixOf : List Char → List Char → Bool
  | [], _ => true
  | _ :: _, [] => false
  | a :: as, b :: bs => a == b && listPrefixOf as bs

/-- Whether `needle` occurs as a contiguous sublist of `hay`. -/
def listSubstr (needle : List Char) : List Char → Bool
  | [] => listPrefixOf needle []
  | hay@(_ :: rest) => listPrefixOf needle hay || listSubstr needle rest

/-- ASCII lower-casing of one character. -/
def charLower (c : Char) : Char :=
  if 'A' ≤ c ∧ c ≤ 'Z' then Char.ofNat (c.toNat + 32) else c

/-- A concrete instance of the abstract matcher: Python
`re.search(pattern, text, re.IGNORECASE)` for patterns that are plain
literals (no regex metacharacters) is case-insensitive substring search. -/
def reSearchLit (pattern text : String) : Bool :=
  listSubstr (pattern.data.map charLower) (text.data.map charLower)

/-- A raw `service.spec.ports` entry as returned by the cluster API
(`target_port` already stringified, as `_convert_service` does). -/
structure RawPort where
  name : Option String
  port : Int
  target_port : Option String
  protocol : Option String
  node_port : Option Int
deriving DecidableEq, Repr

/-- A raw service object (`metadata` and `spec` fields read by
`_convert_service`). -/
structure RawService where
  name : String
  «namespace» : String
  type : Option String
  cluster_ip : Option String
  external_ips : Option (List String)
  ports : Option (List RawPort)
  labels : Option (List (String × String))
  annotations : Option (List (String × String))
  selector : Option (List (String × String))
  creation_timestamp : Option Nat
deriving DecidableEq, Repr

/-- A raw EndpointSlice port (only `.port` is read). -/
structure RawSlicePort where
  port : Int
deriving DecidableEq, Repr

/-- A raw EndpointSlice endpoint condition object (`conditions.ready`). -/
structure RawConditions where
  ready : Bool
deriving DecidableEq, Repr

/-- A raw EndpointSlice endpoint. -/
structure RawSliceEndpoint where
  addresses : Option (List String)
  conditions : Option RawConditions
  hostname : Option String
deriving DecidableEq, Repr

/-- A raw EndpointSlice object. -/
structure RawSlice where
  endpoints : Option (List RawSliceEndpoint)
  ports : Option (List RawSlicePort)
deriving DecidableEq, Repr

/-- A raw legacy-Endpoints subset address. -/
structure RawAddress where
  ip : String
  hostname : Option String
deriving DecidableEq, Repr

/-- A raw legacy-Endpoints subset. -/
structure RawSubset where
  addresses : Option (List RawAddress)
  not_ready_addresses : Option (List RawAddress)
  ports : Option (List RawSlicePort)
deriving DecidableEq, Repr

/-- A raw legacy-Endpoints object. -/
structure RawEndpoints where
  subsets : Option (List RawSubset)
deriving DecidableEq, Repr

/-- The Cluster Reader: the four point-in-time listing calls the core
consumes, each failing with an `ApiException` status code. -/
structure Cluster where
  listNamespaces : Except Nat (List String)
  listServices : String → Except Nat (List RawService)
  listEndpointSlices : (ns : String) → (service_name : String) → Except Nat (List RawSlice)
  readNamespacedEndpoints : (name : String) → (ns : String) → Except Nat RawEndpoints

/-- Constructing a `models.ServiceEndpoint`: the pydantic field validator
rejects a port outside `MIN_PORT..MAX_PORT` with a `ValidationError`. -/
def mkServiceEndpoint (ip : String) (port : Int) (ready : Bool)
    (hostname : Option String) : Except PyErr ServiceEndpoint :=
  if MIN_PORT ≤ port ∧ port ≤ MAX_PORT then
    Except.ok { ip := ip, port := port, ready := ready, hostname := hostname }
  else Except.error PyErr.validationError

/-- One `ServiceEndpoint` per port number for one address (the innermost
fan-out loop shared by the slice and legacy paths). -/
def addrEndpoints (ip : String) (hostname : Option String) (ready : Bool) :
    List Int → Except PyErr (List ServiceEndpoint)
  | [] => Except.ok []
  | pn :: ps =>
    match mkServiceEndpoint ip pn ready hostname with
    | Except.error e => Except.error e
    | Except.ok ep =>
      match addrEndpoints ip hostname ready ps with
      | Except.error e => Except.error e
      | Except.ok rest => Except.ok (ep :: rest)

/-- The port numbers used for a slice's endpoints: the slice's declared
ports, or the service's own `spec.ports` when the slice declares none
(`if slice_obj.ports:` — `None` and `[]` are both falsy). -/
def slicePortNumbers (raw : RawService) (slc : RawSlice) : List Int :=
  let ps := pyList slc.ports
  if ps.isEmpty then (pyList raw.ports).map (fun p => p.port)
  else ps.map (fun p => p.port)

/-- Per-address loop of `_get_endpoint_slices` (addresses are plain IP
strings; readiness and hostname come from the slice endpoint). -/
def sliceAddrsEndpoints (hostname : Option String) (ready : Bool) (ports : List Int) :
    List String → Except PyErr (List ServiceEndpoint)
  | [] => Except.ok []
  | ip :: rest =>
    match addrEndpoints ip hostname ready ports with
    | Except.error e => Except.error e
    | Except.ok first =>
      match sliceAddrsEndpoints hostname ready ports rest with
      | Except.error e => Except.error e
      | Except.ok others => Except.ok (first ++ others)

/-- Per-endpoint loop of `_get_endpoint_slices`: endpoints with no (falsy)
address list are skipped; readiness defaults to true when the endpoint has
no conditions object. -/
def sliceEndpointsLoop (raw : RawService) (slc : RawSlice) :
    List RawSliceEndpoint → Except PyErr (List ServiceEndpoint)
  | [] => Except.ok []
  | e :: es =>
    match
      (if (pyList e.addresses).isEmpty then Except.ok []
       else
         sliceAddrsEndpoints e.hostname
           (match e.conditions with
             | none => true
             | some c => c.ready)
           (slicePortNumbers raw slc) (pyList e.addresses)) with
    | Except.error err => Except.error err
    | Except.ok first =>
      match sliceEndpointsLoop raw slc es with
      | Except.error err => Except.error err
      | Except.ok rest => Except.ok (first ++ rest)

/-- Per-slice loop of `_get_endpoint_slices`: slices with no (falsy)
endpoint list are skipped. -/
def sliceLoop (raw : RawService) : List RawSlice → Except PyErr (List ServiceEndpoint)
  | [] => Except.ok []
  | slc :: rest =>
    match
      (if (pyList slc.endpoints).isEmpty then Except.ok []
       else sliceEndpointsLoop raw slc (pyList slc.endpoints)) with
    | Except.error err => Except.error err
    | Except.ok first =>
      match sliceLoop raw rest with
      | Except.error err => Except.error err
      | Except.ok others => Except.ok (first ++ others)

/-- Embeds `ServiceDiscovery._get_endpoint_slices`: query the EndpointSlice API
(an `ApiException` is logged and re-raised) and fan the slices out into
endpoints. -/
def getEndpointSlices (c : Cluster) (raw : RawService) :
    Except PyErr (List ServiceEndpoint) :=
  match c.listEndpointSlices raw.«namespace» raw.name with
  | Except.error st => Except.error (PyErr.apiException st)
  | Except.ok slices => sliceLoop raw slices

/-- The port numbers used for a legacy subset: the subset's declared
ports, or the service's own `spec.ports` when the subset declares none
(`if subset.ports:` — `None` and `[]` are both falsy). -/
def subsetPortNumbers (raw : RawService) (sub : RawSubset) : List Int :=
  let ps := pyList sub.ports
  if ps.isEmpty then (pyList raw.ports).map (fun p => p.port)
  else ps.map (fun p => p.port)

/-- Per-address loop of `_get_endpoints_legacy` (hostname comes from the
address; readiness is fixed by which address list is being processed). -/
def legacyAddrsEndpoints (ready : Bool) (ports : List Int) :
    List RawAddress → Except PyErr (List ServiceEndpoint)
  | [] => Except.ok []
  | a :: rest =>
    match addrEndpoints a.ip a.hostname ready ports with
    | Except.error e => Except.error e
    | Except.ok first =>
      match legacyAddrsEndpoints ready ports rest with
      | Except.error e => Except.error e
      | Except.ok others => Except.ok (first ++ others)

/-- One subset of `_get_endpoints_legacy`: `addresses` (ready) first, then
`not_ready_addresses` (not ready), fanned out over the subset's ports. -/
def subsetEndpoints (raw : RawService) (sub : RawSubset) :
    Except PyErr (List ServiceEndpoint) :=
  match legacyAddrsEndpoints true (subsetPortNumbers raw sub) (pyList sub.addresses) with
  | Except.error e => Except.error e
  | Except.ok readyEps =>
    match
      legacyAddrsEndpoints false (subsetPortNumbers raw sub)
        (pyList sub.not_ready_addresses) with
    | Except.error e => Except.error e
    | Except.ok notReadyEps => Except.ok (readyEps ++ notReadyEps)

/-- Per-subset loop of `_get_endpoints_legacy`. -/
def subsetsLoop (raw : RawService) : List RawSubset → Except PyErr (List ServiceEndpoint)
  | [] => Except.ok []
  | sub :: rest =>
    match subsetEndpoints raw sub with
    | Except.error e => Except.error e
    | Except.ok first =>
      match subsetsLoop raw rest with
      | Except.error e => Except.error e
      | Except.ok others => Except.ok (first ++ others)

/-- Embeds `ServiceDiscovery._get_endpoints_legacy`: read the legacy Endpoints
object (an `ApiException` is logged and re-raised; a falsy `subsets` field
yields the empty list) and fan the subsets out into endpoints. -/
def getEndpointsLegacy (c : Cluster) (raw : RawService) :
    Except PyErr (List ServiceEndpoint) :=
  match c.readNamespacedEndpoints raw.name raw.«namespace» with
  | Except.error st => Except.error (PyErr.apiException st)
  | Except.ok eobj => subsetsLoop raw (pyList eobj.subsets)

/-- Embeds `ServiceDiscovery._get_service_endpoints`: try the EndpointSlice API,
swallowing any exception; if the accumulated list is empty, fall back to
the legacy Endpoints API, again swallowing any exception. -/
def getServiceEndpoints (c : Cluster) (raw : RawService) : List ServiceEndpoint :=
  let fromSlices :=
    match getEndpointSlices c raw with
    | Except.ok l => l
    | Except.error _ => []
  if fromSlices.isEmpty then
    match getEndpointsLegacy c raw with
    | Except.ok l => l
    | Except.error _ => []
  else fromSlices

/-- Embeds `ServiceType(...)` on a type string: `ValueError` for a string that is
not a member of the enum. -/
def serviceTypeOfString (s : String) : Except PyErr ServiceType :=
  if s = "ClusterIP" then Except.ok ServiceType.clusterIP
  else if s = "NodePort" then Except.ok ServiceType.nodePort
  else if s = "LoadBalancer" then Except.ok ServiceType.loadBalancer
  else if s = "ExternalName" then Except.ok ServiceType.externalName
  else Except.error PyErr.valueError

/-- Python `str(port.target_port) if port.target_port else None`: the
falsy empty string collapses to `None`. -/
def pyStrOpt : Option String → Option String
  | none => none
  | some s => if s = "" then none else some s

/-- Constructing a `models.ServicePort`: `protocol` defaults to `"TCP"`
when falsy, and the pydantic validator rejects a port outside
`MIN_PORT..MAX_PORT` with a `ValidationError`. -/
def mkServicePort (rp : RawPort) : Except PyErr ServicePort :=
  if MIN_PORT ≤ rp.port ∧ rp.port ≤ MAX_PORT then
    Except.ok
      { name := rp.name, port := rp.port, target_port := pyStrOpt rp.target_port,
        protocol := pyOr rp.protocol "TCP", node_port := rp.node_port }
  else Except.error PyErr.validationError

/-- The ports loop of `_convert_service`: each raw port is validated in
order; the first invalid one raises. -/
def mkServicePorts : List RawPort → Except PyErr (List ServicePort)
  | [] => Except.ok []
  | rp :: rest =>
    match mkServicePort rp with
    | Except.error e => Except.error e
    | Except.ok p =>
      match mkServicePorts rest with
      | Except.error e => Except.error e
      | Except.ok ps => Except.ok (p :: ps)

/-- Embeds `ServiceDiscovery._convert_service` combined with the pydantic
validators of `models.KubernetesService`: build the ports, parse
`spec.type or "ClusterIP"`, then construct the model, whose validators
reject an empty name or namespace with a `ValidationError`.  The model is
built with no endpoints, status unknown and `is_frontend = False` (the
`detect_frontend` validator turns the supplied `None` into `False`). -/
def convertService (raw : RawService) : Except PyErr KubernetesService :=
  match mkServicePorts (pyList raw.ports) with
  | Except.error e => Except.error e
  | Except.ok ports =>
    match serviceTypeOfString (pyOr raw.type "ClusterIP") with
    | Except.error e => Except.error e
    | Except.ok st =>
      if raw.name = "" ∨ raw.«namespace» = "" then Except.error PyErr.validationError
      else
        Except.ok
          { name := raw.name, «namespace» := raw.«namespace», service_type := st,
            cluster_ip := raw.cluster_ip, external_ips := pyList raw.external_ips,
            ports := ports, endpoints := [],
            labels := pyList raw.labels, annotations := pyList raw.annotations,
            selector := pyList raw.selector, created_at := raw.creation_timestamp,
            endpoint_status := EndpointStatus.unknown, is_frontend := false,
            http_response_code := none, redirect_url := "" }

/-- The per-service body of `_discover_services_in_namespace`: a failed
conversion is logged and skipped; a headless service is skipped when
headless inclusion is off; otherwise the endpoints are resolved and the
service is completed with them and their aggregate status. -/
def processService (c : Cluster) (cfg : Config) (raw : RawService) :
    Option KubernetesService :=
  match convertService raw with
  | Except.error _ => none
  | Except.ok svc =>
    if svc.is_headless && !cfg.include_headless_services then none
    else
      some { svc with
        endpoints := getServiceEndpoints c raw,
        endpoint_status := determineEndpointStatus (getServiceEndpoints c raw) }

/-- Embeds `ServiceDiscovery._discover_services_in_namespace`: an `ApiException`
from listing the namespace's services is logged and turned into the empty
list; each listed service is processed, skipping failures. -/
def discoverServicesInNamespace (c : Cluster) (cfg : Config) (ns : String) :
    List KubernetesService :=
  match c.listServices ns with
  | Except.error _ => []
  | Except.ok raws => raws.filterMap (processService c cfg)

/-- Embeds `ServiceDiscovery._get_namespaces`: an `ApiException` is logged and
turned into the empty list. -/
def getNamespaces (c : Cluster) : List String :=
  match c.listNamespaces with
  | Except.error _ => []
  | Except.ok l => l

/-- Embeds `ServiceDiscovery._filter_namespaces`: drop the namespaces in the
configured skip set, preserving order. -/
def filterNamespaces (cfg : Config) (namespaces : List String) : List String :=
  namespaces.filter (fun ns => !cfg.skip_namespaces.contains ns)

/-- The per-namespace loop of `discover_services`, accumulating the
discovered services and the scanned-namespace list.  In the embedding
`discoverServicesInNamespace` is total (every `ApiException` is already
caught inside it), so the loop's exception handler is unreachable and each
visited namespace is appended to the scanned list. -/
def discoverLoop (c : Cluster) (cfg : Config) :
    List String → List KubernetesService × List String
  | [] => ([], [])
  | ns :: rest =>
    let restResult := discoverLoop c cfg rest
    (discoverServicesInNamespace c cfg ns ++ restResult.1, ns :: restResult.2)

/-- Embeds `models.ServiceDiscoveryResult`. -/
structure ServiceDiscoveryResult where
  services : List KubernetesService
  namespaces_scanned : List String
  namespaces_skipped : List String
  total_services : Nat
  healthy_services : Nat
  unhealthy_services : Nat
  frontend_services : Nat
  discovery_time : Option Nat
deriving DecidableEq, Repr

/-- Constructing a `models.ServiceDiscoveryResult`: the `calculate_services`
model validator (mode `before`) unconditionally overwrites the four
counter fields with values computed from the service list, so the
counters supplied at construction (pydantic would default them to `0`
when absent) never reach the object. -/
def mkServiceDiscoveryResult (services : List KubernetesService)
    (namespaces_scanned namespaces_skipped : List String)
    (discovery_time : Option Nat)
    (supplied_total supplied_healthy supplied_unhealthy supplied_frontend : Nat) :
    ServiceDiscoveryResult :=
  { services := services
    namespaces_scanned := namespaces_scanned
    namespaces_skipped := namespaces_skipped
    total_services := services.length
    healthy_services :=
      (services.filter (fun s => s.endpoint_status == EndpointStatus.healthy)).length
    unhealthy_services :=
      (services.filter (fun s => s.endpoint_status == EndpointStatus.unhealthy)).length
    frontend_services := (services.filter (fun s => s.is_frontend)).length
    discovery_time := discovery_time }

/-- Embeds `ServiceDiscovery.discover_services`: list the namespaces, filter them
by the skip set, scan each remaining namespace, and build the result; the
skipped list is every namespace from the initial listing that was not
scanned. -/
def discoverServices (c : Cluster) (cfg : Config) : ServiceDiscoveryResult :=
  let namespaces := getNamespaces c
  let scanResult := discoverLoop c cfg (filterNamespaces cfg namespaces)
  let skipped := namespaces.filter (fun ns => !scanResult.2.contains ns)
  mkServiceDiscoveryResult scanResult.1 scanResult.2 skipped none 0 0 0 0

/-- Code-point comparison of strings as character lists (Python's `<=` on
strings). -/
def charListLe : List Char → List Char → Bool
  | [], _ => true
  | _ :: _, [] => false
  | a :: as, b :: bs => if a = b then charListLe as bs else decide (a < b)

/-- Python `<=` on strings. -/
def strLe (a b : String) : Bool :=
  charListLe a.data b.data

/-- The sort key of `get_sorted_services`: lexicographic on
`(namespace, name)`. -/
def serviceLe (a b : KubernetesService) : Bool :=
  if a.«namespace» = b.«namespace» then strLe a.name b.name
  else strLe a.«namespace» b.«namespace»

/-- Stable insertion of an element into a sorted list: placed before the
first element it compares `le` to, hence after earlier-inserted equal
elements. -/
def insertLe {α : Type} (le : α → α → Bool) (x : α) : List α → List α
  | [] => [x]
  | y :: ys => if le x y then x :: y :: ys else y :: insertLe le x ys

/-- Stable insertion sort.  Python's `sorted` is a stable sort, and any
two stable sorts under the same total preorder produce the same list, so
this models `sorted(self.services, key=lambda s: (s.namespace, s.name))`
exactly. -/
def insertionSort {α : Type} (le : α → α → Bool) : List α → List α
  | [] => []
  | x :: xs => insertLe le x (insertionSort le xs)

/-- Embeds `ServiceDiscoveryResult.get_sorted_services`. -/
def getSortedServices (r : ServiceDiscoveryResult) : List KubernetesService :=
  insertionSort serviceLe r.services

/-- Embeds `ServiceDiscoveryResult._is_port_frontend`: with no config, fall back
to the service-level flag; otherwise the service name is tried first, then
the port's own (truthy) name. -/
def isPortFrontend (reSearch : String → String → Bool) (s : KubernetesService)
    (p : ServicePort) (cfg : Option Config) : Bool :=
  match cfg with
  | none => s.is_frontend
  | some c =>
    if isFrontendService reSearch c s.name then true
    else
      match p.name with
      | none => false
      | some pn => if pn = "" then false else isFrontendPort reSearch c pn

/-- One record of the flattened portal view (`_to_portal_dict`'s
per-port `service_entry`). -/
structure PortalEntry where
  «namespace» : String
  service : String
  port : Int
  port_name : Option String
  protocol : String
  service_type : ServiceType
  cluster_ip : Option String
  endpoint_status : EndpointStatus
  is_frontend : Bool
  has_endpoints : Bool
  endpoint_count : Nat
  proxy_url : String
  display_name : String
  created_at : Option Nat
  http_response_code : Option Int
  redirect_url : String
deriving DecidableEq, Repr

/-- The `service_entry` dictionary built for one service/port pair. -/
def portalEntry (reSearch : String → String → Bool) (s : KubernetesService)
    (p : ServicePort) (cfg : Option Config) : PortalEntry :=
  { «namespace» := s.«namespace», service := s.name, port := p.port,
    port_name := p.name, protocol := p.protocol, service_type := s.service_type,
    cluster_ip := s.cluster_ip, endpoint_status := s.endpoint_status,
    is_frontend := isPortFrontend reSearch s p cfg,
    has_endpoints := s.has_valid_endpoints, endpoint_count := s.endpoints.length,
    proxy_url := s.get_proxy_url p,
    display_name := s.display_name ++ ":" ++ toString p.port,
    created_at := s.created_at, http_response_code := s.http_response_code,
    redirect_url := s.redirect_url }

/-- The `services` list of `ServiceDiscoveryResult._to_portal_dict`: every
port of every sorted service yields one record — there is no
deduplication on this path. -/
def portalServices (reSearch : String → String → Bool) (r : ServiceDiscoveryResult)
    (cfg : Option Config) : List PortalEntry :=
  (getSortedServices r).flatMap (fun s => s.ports.map (fun p => portalEntry reSearch s p cfg))

/-- Embeds `models.NginxLocation` (`rewrite_rule` is never set by the
generator). -/
structure NginxLocation where
  path : String
  service_dns : String
  rewrite_rule : Option String
deriving DecidableEq, Repr

/-- Embeds `models.NginxConfig` (generation timestamp omitted). -/
structure NginxConfig where
  locations : List NginxLocation
deriving DecidableEq, Repr

/-- The `service_key` used by `_build_nginx_config` for duplicate
suppression: the namespace, name and port number joined by underscores. -/
def serviceKey (s : KubernetesService) (p : ServicePort) : String :=
  s.«namespace» ++ "_" ++ s.name ++ "_" ++ toString p.port

/-- One step of `re.sub(r"[^a-zA-Z0-9\-_/]", "_", path)`. -/
def cleanChar (c : Char) : Char :=
  if c.isAlpha || c.isDigit || c = '-' || c = '_' || c = '/' then c else '_'

/-- Embeds `re.sub(r"_+", "_", path)`: collapse runs of underscores. -/
def collapseUnderscores : List Char → List Char
  | [] => []
  | [c] => [c]
  | c :: d :: rest =>
    if c = '_' && d = '_' then collapseUnderscores (d :: rest)
    else c :: collapseUnderscores (d :: rest)

/-- Embeds `NginxGenerator._generate_location_path`. -/
def generateLocationPath (s : KubernetesService) (p : ServicePort) : String :=
  String.mk (collapseUnderscores
    (("/" ++ s.«namespace» ++ "_" ++ s.name ++ "_" ++ toString p.port).data.map cleanChar))

/-- Embeds `NginxGenerator._generate_service_dns`. -/
def generateServiceDns (s : KubernetesService) (p : ServicePort) : String :=
  s.name ++ "." ++ s.«namespace» ++ ".svc.cluster.local:" ++ toString p.port

/-- The inner port loop of `_build_nginx_config`, instrumented to keep
each emitted location paired with the `service_key` it was emitted under
(the emitted locations are exactly the second components).  A key already
in the processed set is skipped; otherwise it is added and the location
emitted. -/
def nginxPortsAux (s : KubernetesService) :
    List ServicePort → List String → List (String × NginxLocation) × List String
  | [], processed => ([], processed)
  | p :: ps, processed =>
    if serviceKey s p ∈ processed then nginxPortsAux s ps processed
    else
      ((serviceKey s p,
        { path := generateLocationPath s p, service_dns := generateServiceDns s p,
          rewrite_rule := none }) :: (nginxPortsAux s ps (serviceKey s p :: processed)).1,
       (nginxPortsAux s ps (serviceKey s p :: processed)).2)

/-- The outer service loop of `_build_nginx_config`: services without
healthy endpoints are skipped; the processed-key set threads through the
whole run. -/
def nginxServicesAux :
    List KubernetesService → List String → List (String × NginxLocation) × List String
  | [], processed => ([], processed)
  | s :: ss, processed =>
    if s.has_valid_endpoints then
      ((nginxPortsAux s s.ports processed).1
          ++ (nginxServicesAux ss (nginxPortsAux s s.ports processed).2).1,
       (nginxServicesAux ss (nginxPortsAux s s.ports processed).2).2)
    else nginxServicesAux ss processed

/-- Embeds `NginxGenerator._build_nginx_config`. -/
def buildNginxConfig (r : ServiceDiscoveryResult) : NginxConfig :=
  { locations := ((nginxServicesAux r.services []).1).map (fun kl => kl.2) }

/-- Spec-side description of the legacy endpoint computation for one
subset, used for the refinement comparison: addresses with `ready = true`
first, then `not_ready_addresses` with `ready = false`, one endpoint per
address per subset port (or per service port if the subset declares
none). -/
def legacySubsetSpec (raw : RawService) (sub : RawSubset) : List ServiceEndpoint :=
  ((pyList sub.addresses).flatMap (fun a =>
    (subsetPortNumbers raw sub).map (fun pn =>
      { ip := a.ip, port := pn, ready := true, hostname := a.hostname }))) ++
  ((pyList sub.not_ready_addresses).flatMap (fun a =>
    (subsetPortNumbers raw sub).map (fun pn =>
      { ip := a.ip, port := pn, ready := false, hostname := a.hostname })))

/-- Spec-side description of the whole legacy endpoint list: the subsets
in order, each expanded by `legacySubsetSpec`. -/
def legacySpecEndpoints (raw : RawService) (eobj : RawEndpoints) : List ServiceEndpoint :=
  (pyList eobj.subsets).flatMap (legacySubsetSpec raw)

/- Concrete test fixtures used by witnesses and counterexamples. -/

/-- A raw port 80 with every optional field absent. -/
def rawPort80 : RawPort :=
  { name := none, port := 80, target_port := none, protocol := none, node_port := none }

/-- A validated port 80. -/
def port80 : ServicePort :=
  { name := none, port := 80, target_port := none, protocol := "TCP", node_port := none }

/-- A minimal healthy ClusterIP service `d/s` with one port. -/
def baseService : KubernetesService :=
  { name := "s", «namespace» := "d", service_type := ServiceType.clusterIP,
    cluster_ip := some "10.0.0.1", external_ips := [], ports := [port80],
    endpoints := [], labels := [], annotations := [], selector := [],
    created_at := none, endpoint_status := EndpointStatus.healthy,
    is_frontend := false, http_response_code := none, redirect_url := "" }

/-- A minimal valid raw service `default/webapp` with one port. -/
def rawWebapp : RawService :=
  { name := "webapp", «namespace» := "default", type := none,
    cluster_ip := some "10.0.0.1", external_ips := none, ports := some [rawPort80],
    labels := none, annotations := none, selector := none, creation_timestamp := none }

/-- A two-namespace cluster with no services, used to witness the
partition invariant. -/
def cluster2 : Cluster :=
  { listNamespaces := Except.ok ["default", "kube-system"]
    listServices := fun _ => Except.ok []
    listEndpointSlices := fun _ _ => Except.error 404
    readNamespacedEndpoints := fun _ _ => Except.error 404 }

/-- A configuration that skips `kube-system` only. -/
def config2 : Config :=
  { skip_namespaces := ["kube-system"], include_headless_services := false,
    frontend_patterns := [] }

/-- A configuration with nothing skipped and no patterns. -/
def configEmpty : Config :=
  { skip_namespaces := [], include_headless_services := false, frontend_patterns := [] }

/-- A cluster whose service listing fails with a 500 `ApiException` for
every namespace. -/
def cluster4 : Cluster :=
  { listNamespaces := Except.ok ["default"]
    listServices := fun _ => Except.error 500
    listEndpointSlices := fun _ _ => Except.error 404
    readNamespacedEndpoints := fun _ _ => Except.error 404 }

/-- A legacy Endpoints object with one subset: one ready address, one
not-ready address, one declared port. -/
def endpointsLegacy5 : RawEndpoints :=
  { subsets := some
      [{ addresses := some [{ ip := "10.1.0.1", hostname := none }],
         not_ready_addresses := some [{ ip := "10.1.0.2", hostname := none }],
         ports := some [{ port := 8080 }] }] }

/-- A cluster exposing only the legacy endpoints API (slice API returns
404). -/
def cluster5 : Cluster :=
  { listNamespaces := Except.ok ["default"]
    listServices := fun _ => Except.ok [rawWebapp]
    listEndpointSlices := fun _ _ => Except.error 404
    readNamespacedEndpoints := fun _ _ => Except.ok endpointsLegacy5 }

/-- A discovery result whose service list contains the same service
object twice, for the flattening-deduplication counterexample. -/
def resultDup6 : ServiceDiscoveryResult :=
  mkServiceDiscoveryResult [baseService, baseService] ["d"] [] none 0 0 0 0

/-- A cluster whose endpoint lookups fail with 403 on both the slice and
the legacy API. -/
def cluster7 : Cluster :=
  { listNamespaces := Except.ok ["default"]
    listServices := fun _ => Except.ok [rawWebapp]
    listEndpointSlices := fun _ _ => Except.error 403
    readNamespacedEndpoints := fun _ _ => Except.error 403 }

/-- A configuration whose frontend pattern list holds the empty pattern —
a pattern `re.search` matches inside every string, the empty one
included. -/
def config8 : Config :=
  { skip_namespaces := [], include_headless_services := false, frontend_patterns := [""] }

/-- A configuration with two ordinary frontend patterns. -/
def config8w : Config :=
  { skip_namespaces := [], include_headless_services := false,
    frontend_patterns := ["front", "web"] }

/- Theorems. -/

theorem determineEndpointStatus_of_filter_nil (endpoints : List ServiceEndpoint)
    (h : endpoints.filter (fun ep => ep.ready) = []) :
    determineEndpointStatus endpoints = EndpointStatus.unhealthy := by
  unfold determineEndpointStatus
  rcases endpoints with _ | ⟨e, es⟩
  · simp
  · simp [h]

theorem determineEndpointStatus_of_filter_ne_nil (endpoints : List ServiceEndpoint)
    (h : endpoints.filter (fun ep => ep.ready) ≠ []) :
    determineEndpointStatus endpoints = EndpointStatus.healthy := by
  have hne : endpoints ≠ [] := by
    intro hnil
    exact h (by simp [hnil])
  have hlen : (endpoints.filter (fun ep => ep.ready)).length ≠ 0 := by
    simpa [List.length_eq_zero] using h
  unfold determineEndpointStatus
  rw [if_neg (by simpa [List.isEmpty_iff] using hne), if_neg hlen]
  split <;> rfl

theorem determineEndpointStatus_ne_unknown (endpoints : List ServiceEndpoint) :
    determineEndpointStatus endpoints ≠ EndpointStatus.unknown := by
  by_cases h : endpoints.filter (fun ep => ep.ready) = []
  · rw [determineEndpointStatus_of_filter_nil endpoints h]
    simp
  · rw [determineEndpointStatus_of_filter_ne_nil endpoints h]
    simp

/-- C1: Endpoint-status aggregation — the status computed for a service is
healthy exactly when some resolved endpoint has `ready = true` (no matter
how many are not ready), unhealthy exactly when every endpoint is unready
(which covers the non-empty all-unready case), and the empty endpoint list
yields unhealthy. -/
theorem determine_endpoint_status_spec (endpoints : List ServiceEndpoint) :
    (determineEndpointStatus endpoints = EndpointStatus.healthy ↔
      ∃ ep ∈ endpoints, ep.ready = true) ∧
    (determineEndpointStatus endpoints = EndpointStatus.unhealthy ↔
      ∀ ep ∈ endpoints, ep.ready = false) ∧
    determineEndpointStatus [] = EndpointStatus.unhealthy := by
  have hiff : endpoints.filter (fun ep => ep.ready) = [] ↔
      ∀ ep ∈ endpoints, ep.ready = false := by
    rw [List.filter_eq_nil_iff]
    constructor
    · intro h ep hm
      simpa using h ep hm
    · intro h ep hm
      simpa using h ep hm
  refine ⟨?_, ?_, rfl⟩
  · by_cases h : endpoints.filter (fun ep => ep.ready) = []
    · rw [determineEndpointStatus_of_filter_nil endpoints h]
      have : ¬ ∃ ep ∈ endpoints, ep.ready = true := by
        rintro ⟨ep, hm, hr⟩
        have := hiff.mp h ep hm
        simp [hr] at this
      simp only [this, iff_false]
      decide
    · rw [determineEndpointStatus_of_filter_ne_nil endpoints h]
      have : ∃ ep ∈ endpoints, ep.ready = true := by
        rcases List.exists_mem_of_ne_nil _ h with ⟨ep, hm⟩
        rcases List.mem_filter.mp hm with ⟨hmem, hr⟩
        exact ⟨ep, hmem, by simpa using hr⟩
      simp [this]
  · by_cases h : endpoints.filter (fun ep => ep.ready) = []
    · rw [determineEndpointStatus_of_filter_nil endpoints h]
      exact iff_of_true rfl (hiff.mp h)
    · rw [determineEndpointStatus_of_filter_ne_nil endpoints h]
      have : ¬ ∀ ep ∈ endpoints, ep.ready = false := fun hc => h (hiff.mpr hc)
      simp only [this, iff_false]
      decide

/-- C3: Counter correctness — in every constructed `ServiceDiscoveryResult`
the four counters are the corresponding counts over the service list, and
the values supplied for them at construction are discarded, so two
constructions differing only in the supplied counters are equal. -/
theorem discovery_result_counters (services : List KubernetesService)
    (scanned skipped : List String) (t : Option Nat) (a b c d a' b' c' d' : Nat) :
    (mkServiceDiscoveryResult services scanned skipped t a b c d).total_services
      = services.length ∧
    (mkServiceDiscoveryResult services scanned skipped t a b c d).healthy_services
      = services.countP (fun s => s.endpoint_status == EndpointStatus.healthy) ∧
    (mkServiceDiscoveryResult services scanned skipped t a b c d).unhealthy_services
      = services.countP (fun s => s.endpoint_status == EndpointStatus.unhealthy) ∧
    (mkServiceDiscoveryResult services scanned skipped t a b c d).frontend_services
      = services.countP (fun s => s.is_frontend) ∧
    mkServiceDiscoveryResult services scanned skipped t a b c d
      = mkServiceDiscoveryResult services scanned skipped t a' b' c' d' := by
  refine ⟨rfl, ?_, ?_, ?_, rfl⟩ <;>
    simp [mkServiceDiscoveryResult, List.countP_eq_length_filter]

theorem discoverLoop_scanned (c : Cluster) (cfg : Config) (namespaces : List String) :
    (discoverLoop c cfg namespaces).2 = namespaces := by
  induction namespaces with
  | nil => rfl
  | cons ns rest ih => simp [discoverLoop, ih]

theorem discoverLoop_services_mem (c : Cluster) (cfg : Config) (namespaces : List String)
    (s : KubernetesService) (h : s ∈ (discoverLoop c cfg namespaces).1) :
    ∃ ns ∈ namespaces, s ∈ discoverServicesInNamespace c cfg ns := by
  induction namespaces with
  | nil => simp [discoverLoop] at h
  | cons ns rest ih =>
    rw [discoverLoop] at h
    rcases List.mem_append.mp h with h1 | h1
    · exact ⟨ns, by simp, h1⟩
    · rcases ih h1 with ⟨ns', hm, hs⟩
      exact ⟨ns', by simp [hm], hs⟩

theorem mem_filterNamespaces (cfg : Config) (namespaces : List String) (ns : String) :
    ns ∈ filterNamespaces cfg namespaces ↔
      ns ∈ namespaces ∧ ns ∉ cfg.skip_namespaces := by
  simp [filterNamespaces]

theorem discoverServices_scanned (c : Cluster) (cfg : Config) :
    (discoverServices c cfg).namespaces_scanned = filterNamespaces cfg (getNamespaces c) := by
  simp [discoverServices, mkServiceDiscoveryResult, discoverLoop_scanned]

theorem discoverServices_skipped (c : Cluster) (cfg : Config) :
    (discoverServices c cfg).namespaces_skipped =
      (getNamespaces c).filter
        (fun ns => !(filterNamespaces cfg (getNamespaces c)).contains ns) := by
  simp [discoverServices, mkServiceDiscoveryResult, discoverLoop_scanned]

/-- C2: Namespace partition invariant — when the list-namespaces call at
cycle start returns `nss`, the scanned and skipped lists of the produced
result are disjoint and the union of their elements is exactly the
elements of `nss`. -/
theorem namespaces_partition (c : Cluster) (cfg : Config) (nss : List String)
    (h : c.listNamespaces = Except.ok nss) :
    (∀ ns ∈ (discoverServices c cfg).namespaces_scanned,
        ns ∉ (discoverServices c cfg).namespaces_skipped) ∧
    (∀ ns, (ns ∈ (discoverServices c cfg).namespaces_scanned ∨
            ns ∈ (discoverServices c cfg).namespaces_skipped) ↔ ns ∈ nss) := by
  have hns : getNamespaces c = nss := by simp [getNamespaces, h]
  rw [discoverServices_scanned, discoverServices_skipped, hns]
  constructor
  · intro ns hmem hsk
    have hcond : ns ∉ filterNamespaces cfg nss := by
      simpa using (List.mem_filter.mp hsk).2
    exact hcond hmem
  · intro ns
    constructor
    · rintro (hm | hm)
      · exact ((mem_filterNamespaces cfg nss ns).mp hm).1
      · exact (List.mem_filter.mp hm).1
    · intro hm
      by_cases hc : ns ∈ filterNamespaces cfg nss
      · exact Or.inl hc
      · refine Or.inr (List.mem_filter.mpr ⟨hm, ?_⟩)
        simp [hc]

/-- Witness for C2 at a concrete two-namespace cluster. -/
theorem namespaces_partition_witness :
    (∀ ns ∈ (discoverServices cluster2 config2).namespaces_scanned,
        ns ∉ (discoverServices cluster2 config2).namespaces_skipped) ∧
    (∀ ns, (ns ∈ (discoverServices cluster2 config2).namespaces_scanned ∨
            ns ∈ (discoverServices cluster2 config2).namespaces_skipped) ↔
          ns ∈ ["default", "kube-system"]) :=
  namespaces_partition cluster2 config2 ["default", "kube-system"] rfl

/-- Counterexample to C4: in `cluster4` the service listing for
`"default"` raises a 500 `ApiException`, yet `"default"` ends up in
`namespaces_scanned` (with the skipped list empty), because
`_discover_services_in_namespace` catches the `ApiException` and returns
an empty service list instead of letting the namespace be marked
skipped. -/
theorem namespace_api_error_counterexample :
    cluster4.listServices "default" = Except.error 500 ∧
    (discoverServices cluster4 configEmpty).namespaces_scanned = ["default"] ∧
    (discoverServices cluster4 configEmpty).namespaces_skipped = [] := by
  refine ⟨rfl, ?_, ?_⟩ <;> rfl

/-- C4 (amended): a namespace whose list-services call raises an
`ApiException` contributes no services, but it is still recorded in
`namespaces_scanned` (not in `namespaces_skipped`) when it is in the scan
set; the error never fails the whole cycle. -/
theorem namespace_api_error_scanned (c : Cluster) (cfg : Config) (ns : String) (st : Nat)
    (h : c.listServices ns = Except.error st) :
    discoverServicesInNamespace c cfg ns = [] ∧
    (ns ∈ filterNamespaces cfg (getNamespaces c) →
      ns ∈ (discoverServices c cfg).namespaces_scanned ∧
      ns ∉ (discoverServices c cfg).namespaces_skipped) := by
  constructor
  · simp [discoverServicesInNamespace, h]
  · intro hmem
    rw [discoverServices_scanned, discoverServices_skipped]
    refine ⟨hmem, ?_⟩
    intro hsk
    have hcond : ns ∉ filterNamespaces cfg (getNamespaces c) := by
      simpa using (List.mem_filter.mp hsk).2
    exact hcond hmem

/-- Witness for the amended C4 at the concrete failing cluster. -/
theorem namespace_api_error_scanned_witness :
    discoverServicesInNamespace cluster4 configEmpty "default" = [] ∧
    ("default" ∈ filterNamespaces configEmpty (getNamespaces cluster4) →
      "default" ∈ (discoverServices cluster4 configEmpty).namespaces_scanned ∧
      "default" ∉ (discoverServices cluster4 configEmpty).namespaces_skipped) :=
  namespace_api_error_scanned cluster4 configEmpty "default" 500 rfl

theorem processService_status (c : Cluster) (cfg : Config) (raw : RawService)
    (s : KubernetesService) (h : processService c cfg raw = some s) :
    s.endpoint_status = determineEndpointStatus (getServiceEndpoints c raw) := by
  unfold processService at h
  split at h
  · exact absurd h (by simp)
  · split at h
    · exact absurd h (by simp)
    · rw [← Option.some.inj h]

theorem length_filter_healthy_unhealthy (l : List KubernetesService)
    (h : ∀ s ∈ l, s.endpoint_status ≠ EndpointStatus.unknown) :
    l.length
      = (l.filter (fun s => s.endpoint_status == EndpointStatus.healthy)).length
      + (l.filter (fun s => s.endpoint_status == EndpointStatus.unhealthy)).length := by
  induction l with
  | nil => simp
  | cons x xs ih =>
    have hx := h x (List.mem_cons_self x xs)
    have ihh := ih (fun s hs => h s (List.mem_cons_of_mem x hs))
    cases hst : x.endpoint_status with
    | healthy =>
      simp [List.filter_cons, hst, ihh]
      omega
    | unhealthy =>
      simp [List.filter_cons, hst, ihh]
      omega
    | unknown => exact absurd hst hx

/-- C10: every service placed in a cycle's result carries a status computed
by the aggregation policy, which is never the unknown value, and therefore
the total counter always splits into healthy plus unhealthy. -/
theorem discovered_services_status (c : Cluster) (cfg : Config) :
    (∀ s ∈ (discoverServices c cfg).services,
        s.endpoint_status ≠ EndpointStatus.unknown) ∧
    (discoverServices c cfg).total_services =
      (discoverServices c cfg).healthy_services
        + (discoverServices c cfg).unhealthy_services := by
  have hall : ∀ s ∈ (discoverServices c cfg).services,
      s.endpoint_status ≠ EndpointStatus.unknown := by
    intro s hs
    have hs' : s ∈ (discoverLoop c cfg (filterNamespaces cfg (getNamespaces c))).1 := hs
    rcases discoverLoop_services_mem _ _ _ _ hs' with ⟨ns, _, hmem⟩
    unfold discoverServicesInNamespace at hmem
    cases hls : c.listServices ns with
    | error st =>
      rw [hls] at hmem
      simp at hmem
    | ok raws =>
      rw [hls] at hmem
      rcases List.mem_filterMap.mp hmem with ⟨raw, _, hps⟩
      rw [processService_status c cfg raw s hps]
      exact determineEndpointStatus_ne_unknown _
  exact ⟨hall, length_filter_healthy_unhealthy (discoverServices c cfg).services hall⟩

theorem addrEndpoints_ok (ip : String) (hostname : Option String) (ready : Bool)
    (ports : List Int) (l : List ServiceEndpoint)
    (h : addrEndpoints ip hostname ready ports = Except.ok l) :
    l = ports.map (fun pn =>
      { ip := ip, port := pn, ready := ready, hostname := hostname }) := by
  induction ports generalizing l with
  | nil =>
    rw [addrEndpoints] at h
    simpa using (Except.ok.inj h).symm
  | cons pn ps ih =>
    rw [addrEndpoints] at h
    cases hmk : mkServiceEndpoint ip pn ready hostname with
    | error e =>
      rw [hmk] at h
      exact absurd h (by simp)
    | ok ep =>
      rw [hmk] at h
      cases hrest : addrEndpoints ip hostname ready ps with
      | error e =>
        rw [hrest] at h
        exact absurd h (by simp)
      | ok rest =>
        rw [hrest] at h
        have hep : ep = { ip := ip, port := pn, ready := ready, hostname := hostname } := by
          unfold mkServiceEndpoint at hmk
          split at hmk
          · exact (Except.ok.inj hmk).symm
          · exact absurd hmk (by simp)
        rw [← Except.ok.inj h, hep, ih rest hrest]
        simp

theorem legacyAddrsEndpoints_ok (ready : Bool) (ports : List Int)
    (addrs : List RawAddress) (l : List ServiceEndpoint)
    (h : legacyAddrsEndpoints ready ports addrs = Except.ok l) :
    l = addrs.flatMap (fun a => ports.map (fun pn =>
      { ip := a.ip, port := pn, ready := ready, hostname := a.hostname })) := by
  induction addrs generalizing l with
  | nil =>
    rw [legacyAddrsEndpoints] at h
    simpa using (Except.ok.inj h).symm
  | cons a rest ih =>
    rw [legacyAddrsEndpoints] at h
    cases hfst : addrEndpoints a.ip a.hostname ready ports with
    | error e =>
      rw [hfst] at h
      exact absurd h (by simp)
    | ok first =>
      rw [hfst] at h
      cases hrest : legacyAddrsEndpoints ready ports rest with
      | error e =>
        rw [hrest] at h
        exact absurd h (by simp)
      | ok others =>
        rw [hrest] at h
        rw [← Except.ok.inj h, addrEndpoints_ok _ _ _ _ _ hfst, ih others hrest]
        simp

theorem subsetEndpoints_ok (raw : RawService) (sub : RawSubset)
    (l : List ServiceEndpoint) (h : subsetEndpoints raw sub = Except.ok l) :
    l = legacySubsetSpec raw sub := by
  unfold subsetEndpoints at h
  cases hr : legacyAddrsEndpoints true (subsetPortNumbers raw sub) (pyList sub.addresses) with
  | error e =>
    rw [hr] at h
    exact absurd h (by simp)
  | ok readyEps =>
    rw [hr] at h
    cases hn : legacyAddrsEndpoints false (subsetPortNumbers raw sub)
        (pyList sub.not_ready_addresses) with
    | error e =>
      rw [hn] at h
      exact absurd h (by simp)
    | ok notReadyEps =>
      rw [hn] at h
      rw [← Except.ok.inj h, legacyAddrsEndpoints_ok _ _ _ _ hr,
        legacyAddrsEndpoints_ok _ _ _ _ hn]
      rfl

theorem subsetsLoop_ok (raw : RawService) (subs : List RawSubset)
    (l : List ServiceEndpoint) (h : subsetsLoop raw subs = Except.ok l) :
    l = subs.flatMap (legacySubsetSpec raw) := by
  induction subs generalizing l with
  | nil =>
    rw [subsetsLoop] at h
    simpa using (Except.ok.inj h).symm
  | cons sub rest ih =>
    rw [subsetsLoop] at h
    cases hfst : subsetEndpoints raw sub with
    | error e =>
      rw [hfst] at h
      exact absurd h (by simp)
    | ok first =>
      rw [hfst] at h
      cases hrest : subsetsLoop raw rest with
      | error e =>
        rw [hrest] at h
        exact absurd h (by simp)
      | ok others =>
        rw [hrest] at h
        rw [← Except.ok.inj h, subsetEndpoints_ok _ _ _ hfst, ih others hrest]
        simp

/-- C5: Legacy fallback equivalence — when the slice-based query raises
not-found (or succeeds with zero endpoints) and the legacy query succeeds,
the resolver's final endpoint list is exactly the legacy list, and that
list matches the spec's per-subset description (addresses with
`ready = true` then `not_ready_addresses` with `ready = false`, one
endpoint per address per subset port, or per service port if the subset
declares none). -/
theorem legacy_fallback_equivalence (c : Cluster) (raw : RawService)
    (eobj : RawEndpoints) (l : List ServiceEndpoint)
    (hslice : c.listEndpointSlices raw.«namespace» raw.name = Except.error 404 ∨
      getEndpointSlices c raw = Except.ok [])
    (hread : c.readNamespacedEndpoints raw.name raw.«namespace» = Except.ok eobj)
    (hleg : getEndpointsLegacy c raw = Except.ok l) :
    getServiceEndpoints c raw = l ∧ l = legacySpecEndpoints raw eobj := by
  have hspec : l = legacySpecEndpoints raw eobj := by
    unfold getEndpointsLegacy at hleg
    rw [hread] at hleg
    exact subsetsLoop_ok raw _ l hleg
  refine ⟨?_, hspec⟩
  unfold getServiceEndpoints
  rcases hslice with h404 | hempty
  · have : getEndpointSlices c raw = Except.error (PyErr.apiException 404) := by
      unfold getEndpointSlices
      rw [h404]
    rw [this, hleg]
    simp
  · rw [hempty, hleg]
    simp

/-- Witness for C5 at a cluster exposing only the legacy endpoints API. -/
theorem legacy_fallback_equivalence_witness :
    getServiceEndpoints cluster5 rawWebapp =
      [{ ip := "10.1.0.1", port := 8080, ready := true, hostname := none },
       { ip := "10.1.0.2", port := 8080, ready := false, hostname := none }] ∧
    ([{ ip := "10.1.0.1", port := 8080, ready := true, hostname := none },
      { ip := "10.1.0.2", port := 8080, ready := false, hostname := none }]
        : List ServiceEndpoint)
      = legacySpecEndpoints rawWebapp endpointsLegacy5 :=
  legacy_fallback_equivalence cluster5 rawWebapp endpointsLegacy5 _
    (Or.inl rfl) rfl rfl

/-- Counterexample to C7: in `cluster7` both endpoint lookups for
`default/webapp` fail with a 403 `ApiException`; the cycle continues and
the service still appears in the result, but its endpoint status is
unhealthy, not unknown — the empty resolved endpoint list is aggregated
by the normal policy, and the model's unknown default is overwritten. -/
theorem forbidden_endpoints_counterexample :
    cluster7.listEndpointSlices "default" "webapp" = Except.error 403 ∧
    cluster7.readNamespacedEndpoints "webapp" "default" = Except.error 403 ∧
    ((discoverServices cluster7 configEmpty).services.map
        (fun s => s.endpoint_status)) = [EndpointStatus.unhealthy] ∧
    (∀ s ∈ (discoverServices cluster7 configEmpty).services,
      s.endpoint_status ≠ EndpointStatus.unknown) := by
  refine ⟨rfl, rfl, rfl, ?_⟩
  decide

/-- C7 (amended): when both the slice and the legacy endpoint lookups for
a service fail with a 403 `ApiException`, the resolver returns the empty
endpoint list and the service is still emitted (the cycle continues),
carrying endpoint status unhealthy — not unknown. -/
theorem forbidden_endpoints_degrade (c : Cluster) (cfg : Config) (raw : RawService)
    (svc : KubernetesService)
    (hs : c.listEndpointSlices raw.«namespace» raw.name = Except.error 403)
    (hl : c.readNamespacedEndpoints raw.name raw.«namespace» = Except.error 403)
    (hconv : convertService raw = Except.ok svc)
    (hhead : (svc.is_headless && !cfg.include_headless_services) = false) :
    getServiceEndpoints c raw = [] ∧
    processService c cfg raw =
      some { svc with endpoints := [],
                      endpoint_status := EndpointStatus.unhealthy } := by
  have heps : getServiceEndpoints c raw = [] := by
    have h1 : getEndpointSlices c raw = Except.error (PyErr.apiException 403) := by
      unfold getEndpointSlices
      rw [hs]
    have h2 : getEndpointsLegacy c raw = Except.error (PyErr.apiException 403) := by
      unfold getEndpointsLegacy
      rw [hl]
    unfold getServiceEndpoints
    rw [h1, h2]
    simp
  refine ⟨heps, ?_⟩
  unfold processService
  rw [hconv]
  simp only [hhead, Bool.false_eq_true, if_false, heps]
  rfl

/-- Witness for the amended C7 at the concrete 403 cluster. -/
theorem forbidden_endpoints_degrade_witness :
    getServiceEndpoints cluster7 rawWebapp = [] ∧
    processService cluster7 configEmpty rawWebapp =
      some { name := "webapp", «namespace» := "default",
             service_type := ServiceType.clusterIP,
             cluster_ip := some "10.0.0.1", external_ips := [], ports := [port80],
             endpoints := [], labels := [], annotations := [], selector := [],
             created_at := none, endpoint_status := EndpointStatus.unhealthy,
             is_frontend := false, http_response_code := none, redirect_url := "" } :=
  forbidden_endpoints_degrade cluster7 configEmpty rawWebapp _ rfl rfl rfl rfl

theorem mkServicePorts_ok_ports (ps : List RawPort) (l : List ServicePort)
    (h : mkServicePorts ps = Except.ok l) :
    l.map (fun p => p.port) = ps.map (fun p => p.port) := by
  induction ps generalizing l with
  | nil =>
    rw [mkServicePorts] at h
    have hl := (Except.ok.inj h).symm
    subst hl
    rfl
  | cons rp rest ih =>
    rw [mkServicePorts] at h
    cases hmk : mkServicePort rp with
    | error e =>
      rw [hmk] at h
      exact absurd h (by simp)
    | ok p =>
      rw [hmk] at h
      cases hrest : mkServicePorts rest with
      | error e =>
        rw [hrest] at h
        exact absurd h (by simp)
      | ok ps2 =>
        rw [hrest] at h
        have hport : p.port = rp.port := by
          unfold mkServicePort at hmk
          split at hmk
          · rw [← Except.ok.inj hmk]
          · exact absurd hmk (by simp)
        rw [← Except.ok.inj h]
        simp [hport, ih ps2 hrest]

theorem mkServicePorts_cases (ps : List RawPort) :
    (mkServicePorts ps = Except.error PyErr.validationError ∧
      ∃ p ∈ ps, ¬(MIN_PORT ≤ p.port ∧ p.port ≤ MAX_PORT)) ∨
    (∃ l, mkServicePorts ps = Except.ok l ∧
      ∀ p ∈ ps, MIN_PORT ≤ p.port ∧ p.port ≤ MAX_PORT) := by
  induction ps with
  | nil => exact Or.inr ⟨[], rfl, by simp⟩
  | cons rp rest ih =>
    by_cases hr : MIN_PORT ≤ rp.port ∧ rp.port ≤ MAX_PORT
    · have hmk : mkServicePort rp = Except.ok
          { name := rp.name, port := rp.port, target_port := pyStrOpt rp.target_port,
            protocol := pyOr rp.protocol "TCP", node_port := rp.node_port } := by
        unfold mkServicePort
        rw [if_pos hr]
      rcases ih with ⟨herr, p, hm, hb⟩ | ⟨l, hok, hall⟩
      · refine Or.inl ⟨?_, p, List.mem_cons_of_mem rp hm, hb⟩
        rw [mkServicePorts, hmk, herr]
      · refine Or.inr
          ⟨{ name := rp.name, port := rp.port, target_port := pyStrOpt rp.target_port,
             protocol := pyOr rp.protocol "TCP", node_port := rp.node_port } :: l,
           ?_, ?_⟩
        · rw [mkServicePorts, hmk, hok]
        · intro p hp
          rcases List.mem_cons.mp hp with hp | hp
          · rw [hp]; exact hr
          · exact hall p hp
    · have hmk : mkServicePort rp = Except.error PyErr.validationError := by
        unfold mkServicePort
        rw [if_neg hr]
      refine Or.inl ⟨?_, rp, List.mem_cons_self rp rest, hr⟩
      rw [mkServicePorts, hmk]

/-- C9: Normalization rejects invalid records — assuming the raw record's
service type parses (which is where the only non-`ValidationError` failure
could arise), constructing the canonical service fails, always with a
`ValidationError`, exactly when the name is empty, the namespace is empty,
or some port value lies outside `MIN_PORT..MAX_PORT`; and a successful
construction carries the raw port values unchanged (never clamped). -/
theorem normalization_validation (raw : RawService)
    (htype : ∃ st, serviceTypeOfString (pyOr raw.type "ClusterIP") = Except.ok st) :
    (convertService raw = Except.error PyErr.validationError ↔
      (raw.name = "" ∨ raw.«namespace» = "" ∨
        ∃ p ∈ pyList raw.ports, ¬(MIN_PORT ≤ p.port ∧ p.port ≤ MAX_PORT))) ∧
    (∀ e, convertService raw = Except.error e → e = PyErr.validationError) ∧
    (∀ svc, convertService raw = Except.ok svc →
      svc.ports.map (fun p => p.port) = (pyList raw.ports).map (fun p => p.port)) := by
  obtain ⟨st, hst⟩ := htype
  rcases mkServicePorts_cases (pyList raw.ports) with ⟨herr, hbad⟩ | ⟨l, hok, hgood⟩
  · have hcv : convertService raw = Except.error PyErr.validationError := by
      unfold convertService
      rw [herr]
    refine ⟨iff_of_true hcv (Or.inr (Or.inr hbad)), ?_, ?_⟩
    · intro e he
      rw [hcv] at he
      exact (Except.error.inj he).symm
    · intro svc hsvc
      rw [hcv] at hsvc
      exact absurd hsvc (by simp)
  · have hnotbad :
        ¬ ∃ p ∈ pyList raw.ports, ¬(MIN_PORT ≤ p.port ∧ p.port ≤ MAX_PORT) := by
      rintro ⟨p, hm, hb⟩
      exact hb (hgood p hm)
    by_cases hname : raw.name = "" ∨ raw.«namespace» = ""
    · have hcv : convertService raw = Except.error PyErr.validationError := by
        unfold convertService
        rw [hok, hst]
        simp only [hname, if_true]
      refine ⟨iff_of_true hcv ?_, ?_, ?_⟩
      · rcases hname with h | h
        · exact Or.inl h
        · exact Or.inr (Or.inl h)
      · intro e he
        rw [hcv] at he
        exact (Except.error.inj he).symm
      · intro svc hsvc
        rw [hcv] at hsvc
        exact absurd hsvc (by simp)
    · have hcv : convertService raw = Except.ok
          { name := raw.name, «namespace» := raw.«namespace», service_type := st,
            cluster_ip := raw.cluster_ip, external_ips := pyList raw.external_ips,
            ports := l, endpoints := [],
            labels := pyList raw.labels, annotations := pyList raw.annotations,
            selector := pyList raw.selector, created_at := raw.creation_timestamp,
            endpoint_status := EndpointStatus.unknown, is_frontend := false,
            http_response_code := none, redirect_url := "" } := by
        unfold convertService
        rw [hok, hst]
        simp only [hname, if_false]
      refine ⟨?_, ?_, ?_⟩
      · refine iff_of_false (by simp [hcv]) ?_
        rintro (h | h | h)
        · exact hname (Or.inl h)
        · exact hname (Or.inr h)
        · exact hnotbad h
      · intro e he
        rw [hcv] at he
        exact absurd he (by simp)
      · intro svc hsvc
        rw [hcv] at hsvc
        rw [← Except.ok.inj hsvc]
        exact mkServicePorts_ok_ports (pyList raw.ports) l hok

/-- Witness for C9 at a concrete valid raw service. -/
theorem normalization_validation_witness :
    (convertService rawWebapp = Except.error PyErr.validationError ↔
      (rawWebapp.name = "" ∨ rawWebapp.«namespace» = "" ∨
        ∃ p ∈ pyList rawWebapp.ports,
          ¬(MIN_PORT ≤ p.port ∧ p.port ≤ MAX_PORT))) ∧
    (∀ e, convertService rawWebapp = Except.error e → e = PyErr.validationError) ∧
    (∀ svc, convertService rawWebapp = Except.ok svc →
      svc.ports.map (fun p => p.port)
        = (pyList rawWebapp.ports).map (fun p => p.port)) :=
  normalization_validation rawWebapp ⟨ServiceType.clusterIP, rfl⟩

/-- Counterexample to C8: with the pattern list `[""]` the empty pattern
matches inside every name — `re.search("", name, re.IGNORECASE)` always
matches, the empty port name included — yet the port classifier returns
false for the empty port name because the falsy name short-circuits, so
"true if and only if some pattern matches" fails for port names. -/
theorem frontend_classifier_counterexample :
    (∃ pattern ∈ config8.frontend_patterns, reSearchLit pattern "" = true) ∧
    isFrontendPort reSearchLit config8 "" = false := by
  decide

/-- C8 (amended): for any matcher, the service classifier returns true
exactly when some pattern matches; the port classifier does the same for
every non-empty port name but returns false for the empty port name
regardless of the patterns; the empty pattern list yields false for every
name; and both classifiers are invariant under permutation of the pattern
list. -/
theorem frontend_classifier_spec (reSearch : String → String → Bool) (cfg : Config)
    (name : String) :
    (isFrontendService reSearch cfg name = true ↔
      ∃ pattern ∈ cfg.frontend_patterns, reSearch pattern name = true) ∧
    (name ≠ "" →
      (isFrontendPort reSearch cfg name = true ↔
        ∃ pattern ∈ cfg.frontend_patterns, reSearch pattern name = true)) ∧
    isFrontendPort reSearch cfg "" = false ∧
    (cfg.frontend_patterns = [] →
      isFrontendService reSearch cfg name = false ∧
      isFrontendPort reSearch cfg name = false) ∧
    (∀ patterns2 : List String, cfg.frontend_patterns.Perm patterns2 →
      isFrontendService reSearch cfg name
        = isFrontendService reSearch
            { cfg with frontend_patterns := patterns2 } name ∧
      isFrontendPort reSearch cfg name
        = isFrontendPort reSearch
            { cfg with frontend_patterns := patterns2 } name) := by
  refine ⟨?_, ?_, ?_, ?_, ?_⟩
  · unfold isFrontendService
    by_cases hp : cfg.frontend_patterns.isEmpty
    · rw [if_pos hp]
      have hnil : cfg.frontend_patterns = [] := by simpa using hp
      simp [hnil]
    · rw [if_neg hp]
      exact List.any_eq_true
  · intro hn
    unfold isFrontendPort
    have hbeq : (name == "") = false := by
      simp [hn]
    rw [hbeq]
    by_cases hp : cfg.frontend_patterns.isEmpty
    · rw [Bool.or_false, if_pos hp]
      have hnil : cfg.frontend_patterns = [] := by simpa using hp
      simp [hnil]
    · rw [Bool.or_false, if_neg hp]
      exact List.any_eq_true
  · unfold isFrontendPort
    simp
  · intro hnil
    constructor
    · unfold isFrontendService
      simp [hnil]
    · unfold isFrontendPort
      simp [hnil]
  · intro pats2 hperm
    have hemp : cfg.frontend_patterns.isEmpty = pats2.isEmpty := by
      rcases hcase : cfg.frontend_patterns with _ | ⟨x, xs⟩
      · rw [hcase] at hperm
        rw [List.Perm.eq_nil hperm.symm]
      · rcases hcase2 : pats2 with _ | ⟨y, ys⟩
        · rw [hcase, hcase2] at hperm
          exact absurd (List.Perm.eq_nil hperm) (by simp)
        · rfl
    have hany : ∀ n : String,
        cfg.frontend_patterns.any (fun pattern => reSearch pattern n)
          = pats2.any (fun pattern => reSearch pattern n) := by
      intro n
      rw [List.any_eq, List.any_eq, decide_eq_decide]
      constructor
      · rintro ⟨x, hx, hfx⟩
        exact ⟨x, hperm.mem_iff.mp hx, hfx⟩
      · rintro ⟨x, hx, hfx⟩
        exact ⟨x, hperm.mem_iff.mpr hx, hfx⟩
    constructor
    · unfold isFrontendService
      rw [hemp, hany]
    · unfold isFrontendPort
      rw [hemp, hany]

/-- Witness for the amended C8 at concrete patterns and names. -/
theorem frontend_classifier_spec_witness :
    (isFrontendPort reSearchLit config8w "web" = true ↔
      ∃ pattern ∈ config8w.frontend_patterns, reSearchLit pattern "web" = true) ∧
    isFrontendService reSearchLit config8w "frontend-ui" = true :=
  ⟨(frontend_classifier_spec reSearchLit config8w "web").2.1 (by decide),
   ((frontend_classifier_spec reSearchLit config8w "frontend-ui").1).mpr
     ⟨"front", by decide, by decide⟩⟩

/-- Counterexample to C6: the portal record list performs no
deduplication — with the same service object appearing twice in the
result's service list, the flattened portal view contains two records for
the triple `("d", "s", 80)`, more than the claimed at-most-one. -/
theorem portal_flatten_duplicate_counterexample :
    ((portalServices reSearchLit resultDup6 none).filter
        (fun e => e.«namespace» == "d" && e.service == "s" && e.port == 80)).length
      = 2 ∧
    ¬ ((portalServices reSearchLit resultDup6 none).filter
        (fun e => e.«namespace» == "d" && e.service == "s" && e.port == 80)).length
      ≤ 1 := by
  constructor <;> decide

theorem nginxPortsAux_spec (s : KubernetesService) (ps : List ServicePort)
    (processed : List String) :
    ((nginxPortsAux s ps processed).1.map (fun kl => kl.1)).Nodup ∧
    (∀ k ∈ (nginxPortsAux s ps processed).1.map (fun kl => kl.1), k ∉ processed) ∧
    (∀ k, k ∈ (nginxPortsAux s ps processed).2 ↔
      (k ∈ (nginxPortsAux s ps processed).1.map (fun kl => kl.1) ∨ k ∈ processed)) := by
  induction ps generalizing processed with
  | nil => simp [nginxPortsAux]
  | cons p rest ih =>
    by_cases hmem : serviceKey s p ∈ processed
    · have heq : nginxPortsAux s (p :: rest) processed
          = nginxPortsAux s rest processed := by
        rw [nginxPortsAux, if_pos hmem]
      rw [heq]
      exact ih processed
    · have heq : nginxPortsAux s (p :: rest) processed =
          ((serviceKey s p,
            { path := generateLocationPath s p, service_dns := generateServiceDns s p,
              rewrite_rule := none }) ::
              (nginxPortsAux s rest (serviceKey s p :: processed)).1,
           (nginxPortsAux s rest (serviceKey s p :: processed)).2) := by
        rw [nginxPortsAux, if_neg hmem]
      obtain ⟨hnodup, hfresh, hproc⟩ := ih (serviceKey s p :: processed)
      rw [heq]
      refine ⟨?_, ?_, ?_⟩
      · simp only [List.map_cons]
        refine List.nodup_cons.mpr ⟨?_, hnodup⟩
        intro hk
        exact (hfresh _ hk) (List.mem_cons_self _ _)
      · intro k hk
        simp only [List.map_cons, List.mem_cons] at hk
        rcases hk with hk | hk
        · rw [hk]
          exact hmem
        · intro hkp
          exact (hfresh k hk) (List.mem_cons_of_mem _ hkp)
      · intro k
        rw [hproc k]
        simp only [List.map_cons, List.mem_cons]
        tauto

theorem nginxServicesAux_spec (svcs : List KubernetesService) (processed : List String) :
    ((nginxServicesAux svcs processed).1.map (fun kl => kl.1)).Nodup ∧
    (∀ k ∈ (nginxServicesAux svcs processed).1.map (fun kl => kl.1), k ∉ processed) ∧
    (∀ k, k ∈ (nginxServicesAux svcs processed).2 ↔
      (k ∈ (nginxServicesAux svcs processed).1.map (fun kl => kl.1) ∨ k ∈ processed)) := by
  induction svcs generalizing processed with
  | nil => simp [nginxServicesAux]
  | cons s ss ih =>
    by_cases hv : s.has_valid_endpoints = true
    · have heq : nginxServicesAux (s :: ss) processed =
          ((nginxPortsAux s s.ports processed).1
              ++ (nginxServicesAux ss (nginxPortsAux s s.ports processed).2).1,
           (nginxServicesAux ss (nginxPortsAux s s.ports processed).2).2) := by
        rw [nginxServicesAux, if_pos hv]
      obtain ⟨pn, pf, pp⟩ := nginxPortsAux_spec s s.ports processed
      obtain ⟨sn, sf, sp⟩ := ih (nginxPortsAux s s.ports processed).2
      rw [heq]
      simp only [List.map_append]
      refine ⟨?_, ?_, ?_⟩
      · refine List.Nodup.append pn sn ?_
        intro k hkP hkS
        exact (sf k hkS) ((pp k).mpr (Or.inl hkP))
      · intro k hk hkproc
        rcases List.mem_append.mp hk with hk | hk
        · exact (pf k hk) hkproc
        · exact (sf k hk) ((pp k).mpr (Or.inr hkproc))
      · intro k
        rw [sp k, List.mem_append, pp k]
        tauto
    · have heq : nginxServicesAux (s :: ss) processed
          = nginxServicesAux ss processed := by
        rw [nginxServicesAux, if_neg hv]
      rw [heq]
      exact ih processed

/-- C6 (amended): the nginx location list deduplicates by the
`namespace_service_port` key — in the instrumented fold each emitted
location is paired with the key it was emitted under, the emitted keys are
pairwise distinct, and the locations handed to the generator are exactly
the paired locations, so at most one location exists per
`(namespace, service, port.port)` triple; the portal record list performs
no such deduplication. -/
theorem nginx_flatten_dedup (r : ServiceDiscoveryResult) :
    (buildNginxConfig r).locations
      = ((nginxServicesAux r.services []).1).map (fun kl => kl.2) ∧
    (((nginxServicesAux r.services []).1).map (fun kl => kl.1)).Nodup :=
  ⟨rfl, (nginxServicesAux_spec r.services []).1⟩

end Porthole
